import Mathlib

/-!
Verification development for snippext/baseline.py: a shallow embedding of
the training-and-evaluation loop (the functions train and
initialize_and_train) together with theorems about the loss dispatch, the
training-step structure, the tensor flattening, the best-score ledger and
the run state machine.

Conventions of the embedding:
* The model forward pass, the optimizer, the metric computation and the
  data loader are external collaborators; the embedding records their
  invocations as events in a trace and takes their numeric outputs
  (per-epoch evaluation scores) as parameters.
* Tensors are modelled by their shapes, which is all the flattening code
  manipulates.
* Scores (f1 values) are modelled as rationals.
-/

/-- Substring containment on lists of characters: Python `pat in s`.
Helper for the prefix test. -/
def charsHavePrefix : List Char → List Char → Bool
  | [], _ => true
  | _ :: _, [] => false
  | a :: as, b :: bs => a == b && charsHavePrefix as bs

/-- `charsContain s pat = true` iff `pat` occurs as a contiguous run in `s`. -/
def charsContain (pat : List Char) : List Char → Bool
  | [] => pat.isEmpty
  | c :: rest => charsHavePrefix pat (c :: rest) || charsContain pat rest

/-- Python substring test `pat in s` on strings. -/
def strContains (s pat : String) : Bool :=
  charsContain pat.toList s.toList

/-- A cross-entropy criterion, identified by its optional ignore index:
`nn.CrossEntropyLoss(ignore_index=0)` versus `nn.CrossEntropyLoss()`
(baseline.py lines 37 and 38). -/
structure Criterion where
  ignoreIndex : Option Nat
deriving DecidableEq, Repr

/-- baseline.py line 37: `nn.CrossEntropyLoss(ignore_index=0)`. -/
def tagging_criterion : Criterion := ⟨some 0⟩

/-- baseline.py line 38: `nn.CrossEntropyLoss()`. -/
def classifier_criterion : Criterion := ⟨none⟩

/-- Per-position loss contribution of a criterion. This models the
documented contract of the library primitive: a position whose label
equals the ignore index of the criterion contributes zero to the loss
(hence zero gradient); every other position contributes its underlying
cross-entropy value `ce`. -/
def Criterion.contribution (c : Criterion) (label : Nat) (ce : ℚ) : ℚ :=
  match c.ignoreIndex with
  | some k => if label = k then 0 else ce
  | none => ce

/-- baseline.py lines 47 to 50: the criterion is chosen by a substring
test on the task name alone; no task-type tag is consulted. -/
def selectCriterion (taskname : String) : Criterion :=
  if strContains taskname "tagging" then tagging_criterion
  else classifier_criterion

/-- A tensor, modelled by its shape. -/
structure Tensor where
  shape : List Nat
deriving DecidableEq, Repr

/-- Total number of elements of a tensor. -/
def Tensor.numel (t : Tensor) : Nat := t.shape.prod

/-- baseline.py line 55: `logits.view(-1, logits.shape[-1])`, the flatten
to two dimensions with the last dimension kept. -/
def Tensor.viewLast2 (t : Tensor) : Tensor :=
  ⟨[t.numel / t.shape.getLastD 0, t.shape.getLastD 0]⟩

/-- baseline.py line 56: `y.view(-1)`, the flatten to one dimension. -/
def Tensor.viewFlat1 (t : Tensor) : Tensor :=
  ⟨[t.numel]⟩

/-- One batch, the tuple unpacked at baseline.py line 43:
(words, x, is_heads, tags, mask, y, seqlens, taskname). The taskname
component is a per-example list; the code reads entry 0 (line 44). -/
structure Batch where
  words : List (List String)
  x : Tensor
  is_heads : List (List Nat)
  tags : List (List String)
  mask : List (List Nat)
  y : Tensor
  seqlens : List Nat
  taskname : List String
deriving DecidableEq, Repr

/-- baseline.py line 44: `taskname = taskname[0]`. Batches are nonempty by
the data-model invariant; the default covers the empty list only formally. -/
def Batch.firstTask (b : Batch) : String :=
  b.taskname.headD ""

/-- Observable events of one epoch of training, in program order. -/
inductive Event where
  | zeroGrad : Event
  | forwardPass : String → Event
  | lossCompute : Criterion → Event
  | backwardScaled : Event
  | backwardDirect : Event
  | optimizerStep : Event
  | sanityDump : String → Event
  | lossLine : Nat → String → Event
deriving DecidableEq, Repr

/-- The five core training-step events; the diagnostic prints are not core. -/
def isCoreEvent : Event → Bool
  | Event.zeroGrad => true
  | Event.forwardPass _ => true
  | Event.lossCompute _ => true
  | Event.backwardScaled => true
  | Event.backwardDirect => true
  | Event.optimizerStep => true
  | Event.sanityDump _ => false
  | Event.lossLine _ _ => false

/-- One iteration of the loop body of train (baseline.py lines 41 to 86),
for the batch with index `i`: read the first task name, select the
criterion, zero the gradients, run the forward pass, compute the loss,
run backward (through amp.scale_loss when fp16, directly otherwise), make
one optimizer step, then the diagnostics: the sanity dump on the first
batch and the loss line on every tenth batch. -/
def trainStep (i : Nat) (b : Batch) (fp16 : Bool) : List Event :=
  let taskname := b.firstTask
  let criterion := selectCriterion taskname
  [Event.zeroGrad,
   Event.forwardPass taskname,
   Event.lossCompute criterion,
   if fp16 then Event.backwardScaled else Event.backwardDirect,
   Event.optimizerStep]
  ++ (if i = 0 then [Event.sanityDump taskname] else [])
  ++ (if i % 10 = 0 then [Event.lossLine i taskname] else [])

/-- The function train of baseline.py (lines 18 to 86): one epoch, one
training step per batch of the iterator, in order. The model, optimizer
and batch size are external; the batches parameter is the sequence the
shuffled data loader yields. -/
def train (fp16 : Bool) (batches : List Batch) : List Event :=
  (batches.enum.map (fun p => trainStep p.1 p.2 fp16)).flatten

/-- The two watermarks of baseline.py line 141:
`best_dev_f1 = best_test_f1 = 0.0`. -/
structure Ledger where
  best_dev_f1 : ℚ
  best_test_f1 : ℚ
deriving DecidableEq, Repr

/-- baseline.py line 141. -/
def initLedger : Ledger := ⟨0, 0⟩

/-- Checkpoint kinds: the files run_tag + `_dev.pt` and run_tag + `_test.pt`. -/
inductive Ckpt where
  | dev : Ckpt
  | test : Ckpt
deriving DecidableEq, Repr

/-- baseline.py lines 160 to 166: the per-epoch ledger update and
checkpoint writes. Everything is guarded by `if hp.save_model`; inside,
the dev branch stores dev_f1 and saves the dev checkpoint, and the test
branch compares test_f1 against the test watermark but stores dev_f1
(line 165) and saves the test checkpoint. -/
def epochUpdate (save_model : Bool) (st : Ledger) (dev_f1 test_f1 : ℚ) :
    Ledger × List Ckpt :=
  if save_model then
    let p1 : Ledger × List Ckpt :=
      if dev_f1 > st.best_dev_f1 then
        ({ st with best_dev_f1 := dev_f1 }, [Ckpt.dev])
      else (st, [])
    let p2 : Ledger × List Ckpt :=
      if test_f1 > p1.1.best_test_f1 then
        ({ p1.1 with best_test_f1 := dev_f1 }, [Ckpt.test])
      else (p1.1, [])
    (p2.1, p1.2 ++ p2.2)
  else (st, [])

/-- Observable events of one run of initialize_and_train. -/
inductive RunEvent where
  | init : RunEvent
  | trainEpochEv : Nat → RunEvent
  | evalEpoch : Nat → RunEvent
  | ckpt : Ckpt → RunEvent
  | close : RunEvent
deriving DecidableEq, Repr

/-- The phase events of the run state machine; checkpoint writes are not
phases. -/
def isPhaseEvent : RunEvent → Bool
  | RunEvent.init => true
  | RunEvent.trainEpochEv _ => true
  | RunEvent.evalEpoch _ => true
  | RunEvent.ckpt _ => false
  | RunEvent.close => true

/-- The epoch loop of baseline.py lines 142 to 166: with `k` epochs left
and `e` the current epoch number, run one training epoch, evaluate
(the external eval_on_task returns the score pair `evalF e`), update the
ledger and write checkpoints, then recurse. -/
def epochLoop (save_model : Bool) (evalF : Nat → ℚ × ℚ) :
    Nat → Nat → Ledger → List RunEvent × Ledger
  | 0, _, st => ([], st)
  | Nat.succ k, e, st =>
    let scores := evalF e
    let upd := epochUpdate save_model st scores.1 scores.2
    let rest := epochLoop save_model evalF k (e + 1) upd.1
    (RunEvent.trainEpochEv e :: RunEvent.evalEpoch e ::
       (upd.2.map RunEvent.ckpt ++ rest.1), rest.2)

/-- baseline.py line 127 to 133: amp.initialize wraps model and optimizer
only on the cuda branch and only when fp16 is requested. -/
def ampWrapped (cuda_available fp16 : Bool) : Bool :=
  cuda_available && fp16

/-- The function initialize_and_train of baseline.py (lines 88 to 168):
initialization, the epoch loop from epoch 1 for `n_epochs` epochs, then
`writer.close()`. Returns the run trace and the final ledger. -/
def initialize_and_train (save_model : Bool) (n_epochs : Nat)
    (evalF : Nat → ℚ × ℚ) : List RunEvent × Ledger :=
  let body := epochLoop save_model evalF n_epochs 1 initLedger
  (RunEvent.init :: (body.1 ++ [RunEvent.close]), body.2)

/-- Sanity example: dispatch on a concrete tagging name. -/
example : selectCriterion "hotel_tagging" = tagging_criterion := by decide

/-- Sanity example: dispatch on a concrete classification name. -/
example : selectCriterion "restaurant_pairing" = classifier_criterion := by
  decide

/-- Sanity example: a name that merely contains the marker is routed to
the tagging criterion whatever its declared type. -/
example : selectCriterion "not_really_tagging_classification" =
    tagging_criterion := by decide

/-- A concrete batch used by witnesses. -/
def sampleBatch : Batch :=
  { words := [["room", "clean"]]
    x := ⟨[1, 2]⟩
    is_heads := [[1, 0]]
    tags := [["B", "O"]]
    mask := [[1, 1]]
    y := ⟨[1, 2]⟩
    seqlens := [2]
    taskname := ["hotel_tagging", "hotel_tagging"] }

/-- C1: for every batch the criterion is selected solely by the substring
test on the task name of the batch (its first entry): when the name
contains "tagging" the selected criterion is token-level cross-entropy
with ignore index 0, whose ignored positions contribute zero loss, and
otherwise the standard cross-entropy with no ignore index; no declared
type tag enters the selection, which is a function of the name alone. -/
theorem c1_loss_dispatch_by_substring :
    ∀ (i : Nat) (b : Batch) (fp16 : Bool),
      Event.lossCompute (selectCriterion b.firstTask) ∈ trainStep i b fp16
      ∧ selectCriterion b.firstTask =
          (if strContains b.firstTask "tagging" then tagging_criterion
           else classifier_criterion)
      ∧ tagging_criterion.ignoreIndex = some 0
      ∧ classifier_criterion.ignoreIndex = none
      ∧ (∀ q : ℚ, tagging_criterion.contribution 0 q = 0)
      ∧ (∀ (lbl : Nat) (q : ℚ), classifier_criterion.contribution lbl q = q) := by
  intro i b fp16
  refine ⟨?_, rfl, rfl, rfl, ?_, ?_⟩
  · simp [trainStep]
  · intro q
    simp [Criterion.contribution, tagging_criterion]
  · intro lbl q
    simp [Criterion.contribution, classifier_criterion]

/-- C5: for every batch the core trace of the training step is exactly
one gradient clear, one forward pass, one loss computation, one backward
pass (scaled when fp16 is on, direct otherwise) and one optimizer step,
in this order. -/
theorem c5_step_structure :
    ∀ (i : Nat) (b : Batch) (fp16 : Bool),
      (trainStep i b fp16).filter isCoreEvent =
        [Event.zeroGrad,
         Event.forwardPass b.firstTask,
         Event.lossCompute (selectCriterion b.firstTask),
         if fp16 then Event.backwardScaled else Event.backwardDirect,
         Event.optimizerStep] := by
  intro i b fp16
  cases fp16 <;>
    simp only [trainStep, List.filter_append, List.filter_cons,
      List.filter_nil, isCoreEvent] <;>
    by_cases hi : i = 0 <;> by_cases hm : i % 10 = 0 <;>
    simp [hi, hm, isCoreEvent]

/-- C6: flattening before the criterion call: for the tagging shape
contract the logits tensor of shape [B, S, C] becomes two-dimensional
[B*S, C] and the label tensor of shape [B, S] becomes one-dimensional
with B*S elements; for the classification contract the logits [B, C]
stay [B, C] and the labels [B] stay one-dimensional with B elements, so
both task types reach the criterion as a two-dimensional logits tensor
and a one-dimensional label tensor. -/
theorem c6_flatten_shapes (B S C : Nat) (hC : 0 < C) :
    (Tensor.viewLast2 ⟨[B, S, C]⟩).shape = [B * S, C]
    ∧ (Tensor.viewFlat1 ⟨[B, S]⟩).shape = [B * S]
    ∧ (Tensor.viewLast2 ⟨[B, C]⟩).shape = [B, C]
    ∧ (Tensor.viewFlat1 ⟨[B]⟩).shape = [B]
    ∧ (Tensor.viewLast2 ⟨[B, S, C]⟩).shape.length = 2
    ∧ (Tensor.viewFlat1 ⟨[B, S]⟩).shape.length = 1 := by
  have h3 : B * (S * (C * 1)) = B * S * C := by ring
  have h2 : B * (C * 1) = B * C := by ring
  have e1 : (Tensor.viewLast2 ⟨[B, S, C]⟩).shape = [B * (S * (C * 1)) / C, C] :=
    rfl
  have e2 : (Tensor.viewFlat1 ⟨[B, S]⟩).shape = [B * (S * 1)] := rfl
  have e3 : (Tensor.viewLast2 ⟨[B, C]⟩).shape = [B * (C * 1) / C, C] := rfl
  have e4 : (Tensor.viewFlat1 ⟨[B]⟩).shape = [B * 1] := rfl
  refine ⟨?_, ?_, ?_, ?_, ?_, ?_⟩
  · rw [e1, h3, Nat.mul_div_cancel _ hC]
  · rw [e2, Nat.mul_one]
  · rw [e3, h2, Nat.mul_div_cancel _ hC]
  · rw [e4, Nat.mul_one]
  · rw [e1]; rfl
  · rw [e2]; rfl

/-- Witness for c6_flatten_shapes at B = 2, S = 3, C = 4. -/
theorem c6_flatten_shapes_witness :
    0 < 4 ∧ (Tensor.viewLast2 ⟨[2, 3, 4]⟩).shape = [2 * 3, 4] :=
  ⟨by decide, (c6_flatten_shapes 2 3 4 (by decide)).1⟩

/-- C7: one epoch over an empty batch source produces the empty trace:
no training step, no diagnostics, no optimizer or model mutation, and
the epoch function returns normally (it is total). -/
theorem c7_empty_batch_source :
    ∀ fp16 : Bool,
      train fp16 [] = []
      ∧ (train fp16 []).filter isCoreEvent = []
      ∧ Event.optimizerStep ∉ train fp16 [] := by
  intro fp16
  refine ⟨?_, ?_, ?_⟩ <;> simp [train]

/-- C9: the training step reads only the first entry of the per-example
task-name list: replacing the list by any list with the same first entry
leaves the whole step trace (criterion routing, forward pass and
diagnostics) unchanged. -/
theorem c9_first_example_only (i : Nat) (fp16 : Bool) (b : Batch)
    (ts : List String) (h : ts.head? = b.taskname.head?) :
    trainStep i { b with taskname := ts } fp16 = trainStep i b fp16 := by
  have hft : ({ b with taskname := ts } : Batch).firstTask = b.firstTask := by
    simp [Batch.firstTask, List.headD_eq_head?, h]
  simp [trainStep, hft]

/-- Witness for c9_first_example_only: two batches whose task-name lists
agree on the first entry and differ on the second yield equal traces. -/
theorem c9_first_example_only_witness :
    (["hotel_tagging", "other_task"] : List String).head? =
        sampleBatch.taskname.head?
    ∧ trainStep 0 { sampleBatch with
        taskname := ["hotel_tagging", "other_task"] } false
      = trainStep 0 sampleBatch false :=
  ⟨rfl, c9_first_example_only 0 false sampleBatch
    ["hotel_tagging", "other_task"] rfl⟩

/-- C10: amp.initialize is skipped when no cuda device is available even
with fp16 requested, yet with fp16 on, every training step still routes
its backward pass through amp.scale_loss; so fp16 on a cpu-only host
reaches the scaling path with no established precision context. -/
theorem c10_fp16_cpu_unwrapped_scaling :
    ampWrapped false true = false
    ∧ ∀ (i : Nat) (b : Batch), Event.backwardScaled ∈ trainStep i b true := by
  refine ⟨rfl, ?_⟩
  intro i b
  simp [trainStep]

/-- Closed form of the per-epoch ledger update: with checkpointing off
nothing happens; with it on, the dev watermark takes the dev score when
strictly exceeded, the test watermark takes the dev score when the test
score strictly exceeds it, and the matching checkpoints are written. -/
theorem epochUpdate_elim (save_model : Bool) (st : Ledger) (d t : ℚ) :
    epochUpdate save_model st d t =
      if save_model then
        (⟨if d > st.best_dev_f1 then d else st.best_dev_f1,
          if t > st.best_test_f1 then d else st.best_test_f1⟩,
         (if d > st.best_dev_f1 then [Ckpt.dev] else []) ++
           (if t > st.best_test_f1 then [Ckpt.test] else []))
      else (st, []) := by
  cases save_model
  · rfl
  · by_cases hd : d > st.best_dev_f1 <;> by_cases ht : t > st.best_test_f1 <;>
      simp [epochUpdate, hd, ht]

/-- One epoch update never decreases the best-dev watermark. -/
theorem epochUpdate_dev_mono (save_model : Bool) (st : Ledger) (d t : ℚ) :
    st.best_dev_f1 ≤ (epochUpdate save_model st d t).1.best_dev_f1 := by
  rw [epochUpdate_elim]
  cases save_model
  · simp
  · by_cases hd : d > st.best_dev_f1
    · simp only [if_pos hd]
      exact le_of_lt hd
    · simp [hd]

/-- The epoch loop never decreases the best-dev watermark. -/
theorem epochLoop_dev_mono (save_model : Bool) (evalF : Nat → ℚ × ℚ) :
    ∀ (k e : Nat) (st : Ledger),
      st.best_dev_f1 ≤ (epochLoop save_model evalF k e st).2.best_dev_f1 := by
  intro k
  induction k with
  | zero => intro e st; exact le_refl _
  | succ n ih =>
    intro e st
    exact le_trans
      (epochUpdate_dev_mono save_model st (evalF e).1 (evalF e).2)
      (ih (e + 1) (epochUpdate save_model st (evalF e).1 (evalF e).2).1)

/-- A dev checkpoint is written in an epoch iff checkpointing is on and
the dev score strictly exceeds the pre-epoch watermark. -/
theorem epochUpdate_dev_ckpt (save_model : Bool) (st : Ledger) (d t : ℚ) :
    Ckpt.dev ∈ (epochUpdate save_model st d t).2 ↔
      save_model = true ∧ d > st.best_dev_f1 := by
  rw [epochUpdate_elim]
  cases save_model
  · simp
  · by_cases hd : d > st.best_dev_f1 <;> by_cases ht : t > st.best_test_f1 <;>
      simp [hd, ht]

/-- C2 counterexample: with checkpointing off, a test score strictly
above the test watermark leads to no watermark write and no test
checkpoint, so the claim as stated fails on the save_model = false runs. -/
theorem c2_counterexample :
    (2 : ℚ) > initLedger.best_test_f1
    ∧ (epochUpdate false initLedger 1 2).1.best_test_f1 = 0
    ∧ Ckpt.test ∉ (epochUpdate false initLedger 1 2).2 := by
  refine ⟨?_, rfl, ?_⟩
  · show (0 : ℚ) < 2
    norm_num
  · intro h
    simp [epochUpdate, initLedger] at h

/-- C2 amended: with checkpointing enabled, whenever the test score
strictly exceeds the best-test watermark, the value written into that
watermark is the validation score, not the test score, and a test-best
checkpoint is persisted. -/
theorem c2_amended_test_watermark (st : Ledger) (d t : ℚ)
    (h : t > st.best_test_f1) :
    (epochUpdate true st d t).1.best_test_f1 = d
    ∧ Ckpt.test ∈ (epochUpdate true st d t).2 := by
  rw [epochUpdate_elim]
  simp [h]

/-- Witness for c2_amended_test_watermark at the initial ledger with
dev score 1 and test score 2. -/
theorem c2_amended_test_watermark_witness :
    (2 : ℚ) > initLedger.best_test_f1
    ∧ ((epochUpdate true initLedger 1 2).1.best_test_f1 = 1
        ∧ Ckpt.test ∈ (epochUpdate true initLedger 1 2).2) :=
  ⟨by norm_num [initLedger],
   c2_amended_test_watermark initLedger 1 2 (by norm_num [initLedger])⟩

/-- C3 counterexample: with checkpointing off, the dev score 1 strictly
exceeds the pre-epoch watermark 0 and yet no dev checkpoint is written,
so the stated iff fails. -/
theorem c3_counterexample :
    ¬ (Ckpt.dev ∈ (epochUpdate false initLedger 1 0).2 ↔
        (1 : ℚ) > initLedger.best_dev_f1) := by
  intro h
  have h1 : (1 : ℚ) > initLedger.best_dev_f1 := by
    show (0 : ℚ) < 1
    norm_num
  have h2 := h.mpr h1
  simp [epochUpdate, initLedger] at h2

/-- C3 amended: the best-dev watermark starts at 0 and is non-decreasing
under every epoch update and across the whole epoch loop; a dev-best
checkpoint write occurs in an epoch iff checkpointing is enabled and the
epoch dev score strictly exceeds the pre-epoch watermark. -/
theorem c3_amended_watermark_monotone :
    (∀ (save_model : Bool) (st : Ledger) (d t : ℚ),
        st.best_dev_f1 ≤ (epochUpdate save_model st d t).1.best_dev_f1)
    ∧ (∀ (save_model : Bool) (evalF : Nat → ℚ × ℚ) (k e : Nat) (st : Ledger),
        st.best_dev_f1 ≤ (epochLoop save_model evalF k e st).2.best_dev_f1)
    ∧ initLedger.best_dev_f1 = 0
    ∧ (∀ (save_model : Bool) (st : Ledger) (d t : ℚ),
        Ckpt.dev ∈ (epochUpdate save_model st d t).2 ↔
          save_model = true ∧ d > st.best_dev_f1) :=
  ⟨epochUpdate_dev_mono,
   fun save_model evalF k e st => epochLoop_dev_mono save_model evalF k e st,
   rfl,
   epochUpdate_dev_ckpt⟩

/-- C4 counterexample: the dev watermark update itself is gated by the
checkpointing toggle, the dev score 1 exceeds the watermark 0 yet with
the toggle off the watermark stays 0, while with the toggle on it
becomes 1; so the ledger update does depend on the toggle. -/
theorem c4_counterexample :
    (1 : ℚ) > initLedger.best_dev_f1
    ∧ (epochUpdate false initLedger 1 0).1.best_dev_f1 = 0
    ∧ (epochUpdate true initLedger 1 0).1.best_dev_f1 = 1 := by
  refine ⟨?_, rfl, ?_⟩
  · show (0 : ℚ) < 1
    norm_num
  · rw [epochUpdate_elim]
    have h1 : (1 : ℚ) > initLedger.best_dev_f1 := by
      show (0 : ℚ) < 1
      norm_num
    simp [h1]

/-- C4 amended: the checkpointing toggle gates the whole per-epoch
block: with it enabled, a dev score strictly above the watermark updates
the watermark and persists the dev-best checkpoint; with it disabled the
ledger is left untouched and nothing is persisted. -/
theorem c4_amended_gated_update :
    (∀ (st : Ledger) (d t : ℚ), d > st.best_dev_f1 →
        (epochUpdate true st d t).1.best_dev_f1 = d
        ∧ Ckpt.dev ∈ (epochUpdate true st d t).2)
    ∧ (∀ (st : Ledger) (d t : ℚ), epochUpdate false st d t = (st, [])) := by
  constructor
  · intro st d t h
    rw [epochUpdate_elim]
    simp [h]
  · intro st d t
    rfl

/-- Witness for c4_amended_gated_update at the initial ledger with dev
score 1 and test score 0. -/
theorem c4_amended_gated_update_witness :
    (1 : ℚ) > initLedger.best_dev_f1
    ∧ ((epochUpdate true initLedger 1 0).1.best_dev_f1 = 1
        ∧ Ckpt.dev ∈ (epochUpdate true initLedger 1 0).2) :=
  ⟨by norm_num [initLedger],
   c4_amended_gated_update.1 initLedger 1 0 (by norm_num [initLedger])⟩

/-- Checkpoint events are not phase events. -/
theorem filter_phase_ckpts (l : List Ckpt) :
    (l.map RunEvent.ckpt).filter isPhaseEvent = [] := by
  induction l with
  | nil => rfl
  | cons c cs ih => simp [isPhaseEvent, ih]

/-- The close event is not among mapped checkpoint events. -/
theorem close_not_mem_ckpts (l : List Ckpt) :
    RunEvent.close ∉ l.map RunEvent.ckpt := by
  simp

/-- The phase events of the epoch loop with k epochs left starting at
epoch e: for every epoch from e on, one training pass immediately
followed by one evaluation pass. -/
theorem epochLoop_phases (save_model : Bool) (evalF : Nat → ℚ × ℚ) :
    ∀ (k e : Nat) (st : Ledger),
      (epochLoop save_model evalF k e st).1.filter isPhaseEvent =
        ((List.range' e k).map
          (fun j => [RunEvent.trainEpochEv j, RunEvent.evalEpoch j])).flatten := by
  intro k
  induction k with
  | zero => intro e st; rfl
  | succ n ih =>
    intro e st
    show (RunEvent.trainEpochEv e :: RunEvent.evalEpoch e ::
        (((epochUpdate save_model st (evalF e).1 (evalF e).2).2.map
            RunEvent.ckpt)
          ++ (epochLoop save_model evalF n (e + 1)
              (epochUpdate save_model st (evalF e).1 (evalF e).2).1).1)).filter
        isPhaseEvent = _
    rw [List.range'_succ, List.map_cons, List.flatten_cons]
    simp only [List.filter_cons, List.filter_append, filter_phase_ckpts,
      List.nil_append, isPhaseEvent, ih, List.cons_append]
    rfl

/-- The epoch loop never emits the close event. -/
theorem epochLoop_no_close (save_model : Bool) (evalF : Nat → ℚ × ℚ) :
    ∀ (k e : Nat) (st : Ledger),
      RunEvent.close ∉ (epochLoop save_model evalF k e st).1 := by
  intro k
  induction k with
  | zero => intro e st h; exact absurd h (List.not_mem_nil _)
  | succ n ih =>
    intro e st h
    have h2 : RunEvent.close ∈
        (((epochUpdate save_model st (evalF e).1 (evalF e).2).2.map
            RunEvent.ckpt)
          ++ (epochLoop save_model evalF n (e + 1)
              (epochUpdate save_model st (evalF e).1 (evalF e).2).1).1) := by
      have h1 : RunEvent.close ∈ RunEvent.trainEpochEv e ::
          RunEvent.evalEpoch e ::
          (((epochUpdate save_model st (evalF e).1 (evalF e).2).2.map
              RunEvent.ckpt)
            ++ (epochLoop save_model evalF n (e + 1)
                (epochUpdate save_model st (evalF e).1 (evalF e).2).1).1) := h
      simpa using h1
    rcases List.mem_append.mp h2 with hc | hr
    · exact close_not_mem_ckpts _ hc
    · exact ih (e + 1) _ hr

/-- C8: every run is INIT, then for each epoch e from 1 to the configured
n one training pass strictly followed by one evaluation pass with no
early stopping, then CLOSE; the close of the metric sink happens exactly
once and is the last event of the run. -/
theorem c8_run_state_machine :
    ∀ (save_model : Bool) (n : Nat) (evalF : Nat → ℚ × ℚ),
      (initialize_and_train save_model n evalF).1.filter isPhaseEvent =
        RunEvent.init ::
          (((List.range' 1 n).map
              (fun e => [RunEvent.trainEpochEv e, RunEvent.evalEpoch e])).flatten
            ++ [RunEvent.close])
      ∧ (initialize_and_train save_model n evalF).1.count RunEvent.close = 1
      ∧ (initialize_and_train save_model n evalF).1.getLast? =
          some RunEvent.close := by
  intro save_model n evalF
  have hbody := epochLoop_phases save_model evalF n 1 initLedger
  have hnc := epochLoop_no_close save_model evalF n 1 initLedger
  refine ⟨?_, ?_, ?_⟩
  · show (RunEvent.init ::
        ((epochLoop save_model evalF n 1 initLedger).1
          ++ [RunEvent.close])).filter isPhaseEvent = _
    simp only [List.filter_cons, List.filter_append, isPhaseEvent, hbody]
    rfl
  · show (RunEvent.init ::
        ((epochLoop save_model evalF n 1 initLedger).1
          ++ [RunEvent.close])).count RunEvent.close = 1
    rw [List.count_cons, List.count_append]
    rw [List.count_eq_zero.mpr hnc]
    rfl
  · show (RunEvent.init ::
        ((epochLoop save_model evalF n 1 initLedger).1
          ++ [RunEvent.close])).getLast? = some RunEvent.close
    rw [← List.cons_append, List.getLast?_concat]
